import Mathlib

/-!
Verification of the tool-call orchestration loop of `client.py`
(`MCPClient.process_query` and its helpers), as a shallow embedding.

The external collaborators (Model Backend, Tool Host, the JSON parser of
the standard library, and Python's textual representation of parsed
argument objects) are modelled as function-valued fields of an
environment record `Env`; `process_query` itself is translated
line by line from the source.
-/

/-- One model-issued tool call, as delivered inside an assistant reply:
`tc.id`, `tc.function.name`, `tc.function.arguments` in the source. -/
structure ToolCall where
  id : String
  name : String
  arguments : String
  deriving Repr, DecidableEq

/-- One entry of the conversation history (`messages` in the source).
`assistant` records the dict built at lines 87-101; `tool` records the
dict built at lines 139-143. -/
inductive Message where
  | user (content : String)
  | assistant (content : Option String) (tool_calls : List ToolCall)
  | tool (tool_call_id : String) (content : String)
  deriving Repr, DecidableEq

/-- The assistant message of one chat-completion response
(`response.choices[0].message`). A `tool_calls` of `none` in the wire
format is modelled as the empty list, which is equally falsy. -/
structure AssistantReply where
  content : Option String
  tool_calls : List ToolCall
  deriving Repr, DecidableEq

/-- Python truthiness of an optional string: `None` and `""` are falsy. -/
def pyTruthy : Option String → Bool
  | none => false
  | some s => s ≠ ""

/-- A tool descriptor from `session.list_tools()`: name, description,
input schema (the schema document is kept abstract as its JSON text). -/
structure ToolDescriptor where
  name : String
  description : String
  inputSchema : String
  deriving Repr, DecidableEq

/-- One entry of `available_tools` (lines 56-66): the OpenAI
function-calling wrapper around a tool descriptor. -/
structure ModelToolSpec where
  typ : String
  functionName : String
  functionDescription : String
  functionParameters : String
  deriving Repr, DecidableEq

/-- Lines 56-66: wrap one descriptor as
`\x7btype: "function", function: \x7bname, description, parameters\x7d\x7d`. -/
def toModelSpec (t : ToolDescriptor) : ModelToolSpec :=
  ⟨"function", t.name, t.description, t.inputSchema⟩

/-- One content item of a Tool Host response list: either it exposes a
`text` attribute (line 124) or only its `str()` form (line 127). -/
inductive ContentItem where
  | withText (text : String)
  | other (repr : String)
  deriving Repr, DecidableEq

/-- The `content` attribute of a Tool Host response: a plain string
(line 118), an ordered list of items (line 120), or some other object
kept as its `str()` form (line 130). -/
inductive HostContent where
  | text (s : String)
  | items (l : List ContentItem)
  | fallback (repr : String)
  deriving Repr, DecidableEq

/-- A Tool Host response: either it has a `content` attribute
(line 116) or only its `str()` form (line 132). -/
inductive ToolResponse where
  | withContent (c : HostContent)
  | noContent (repr : String)
  deriving Repr, DecidableEq

/-- Line 124-127: extract `item.text` when present, else `str(item)`. -/
def itemText : ContentItem → String
  | .withText t => t
  | .other r => r

/-- Lines 116-132: normalize a Tool Host response to `result_content`. -/
def normalizeResult : ToolResponse → String
  | .withContent (.text s) => s
  | .withContent (.items l) => String.intercalate "\n" (l.map itemText)
  | .withContent (.fallback r) => r
  | .noContent r => r

/-- One chat-completion request, as issued at lines 69-75 (round 1,
tools attached) and 149-153 (round 2, no tools). -/
structure ModelRequest where
  messages : List Message
  tools : Option (List ModelToolSpec)
  deriving Repr, DecidableEq

/-- The external collaborators of `process_query`. `Args` is the type of
a successfully parsed argument object (a Python dict).
* `listTools` — the catalog returned by `session.list_tools()`;
* `backend` — the Model Backend: the assistant message it returns for a
  given request (`Except.error` would model a raised request failure,
  which the loop does not catch; we model the responding backend);
* `parse` — `json.loads`: the parsed object or the exception text;
* `showArgs` — Python's `str()` of a parsed argument object, used in
  the trace line at line 145;
* `callTool` — `session.call_tool`: the response, or the text of the
  exception it raised. -/
structure Env (Args : Type) where
  listTools : List ToolDescriptor
  backend : ModelRequest → AssistantReply
  parse : String → Except String Args
  showArgs : Args → String
  callTool : String → Args → Except String ToolResponse

/-- Lines 56-66: `available_tools`, the catalog in model schema form. -/
def availableTools {Args : Type} (env : Env Args) : List ModelToolSpec :=
  env.listTools.map toModelSpec

/-- The round-1 request (lines 69-75): the fresh single-user-message
history, the tool specs, automatic tool choice. -/
def round1Request {Args : Type} (env : Env Args) (query : String) : ModelRequest :=
  ⟨[Message.user query], some (availableTools env)⟩

/-- Line 145: the trace line `[Called tool <name> with args <args>]`
(the tool name is quoted in the source). -/
def traceLine {Args : Type} (env : Env Args) (name : String) (a : Args) : String :=
  "[Called tool \x27" ++ name ++ "\x27 with args " ++ env.showArgs a ++ "]"

/-- Line 109: the parse-failure line appended to the output buffer. -/
def parseErrorLine (name e : String) : String :=
  "[Error parsing arguments for " ++ name ++ ": " ++ e ++ "]"

/-- Lines 112-136: `result_content` for a call whose arguments parsed:
the normalized Tool Host response, or the caught-exception text. -/
def dispatchResult {Args : Type} (env : Env Args) (name : String) (a : Args) : String :=
  match env.callTool name a with
  | .ok tr => normalizeResult tr
  | .error e => "[Tool execution error: " ++ e ++ "]"

/-- One iteration of the loop at lines 104-146: the tool-role messages
appended to `messages` and the lines appended to `final_text_parts`
for one tool call. On parse failure (lines 108-110) the source appends
the error line and `continue`s without appending a tool message. -/
def dispatchOne {Args : Type} (env : Env Args) (tc : ToolCall) :
    List Message × List String :=
  match env.parse tc.arguments with
  | .error e => ([], [parseErrorLine tc.name e])
  | .ok a =>
      let result_content := dispatchResult env tc.name a
      ([Message.tool tc.id result_content],
       [traceLine env tc.name a, result_content])

/-- The whole loop at lines 104-146 over a batch of tool calls, in the
order the model emitted them. -/
def dispatchAll {Args : Type} (env : Env Args) :
    List ToolCall → List Message × List String
  | [] => ([], [])
  | tc :: rest =>
      let head := dispatchOne env tc
      let tail := dispatchAll env rest
      (head.1 ++ tail.1, head.2 ++ tail.2)

/-- What one call to `process_query` produced: the returned answer
string, the final `messages` list, and the chat-completion requests
issued, in order. -/
structure TurnResult where
  answer : String
  history : List Message
  requests : List ModelRequest
  deriving Repr, DecidableEq

/-- Lines 48-158: `process_query`. The history starts fresh with the one
user message (lines 50-52); round 1 is issued with the tool specs
(lines 69-75); direct content is buffered (lines 81-82); if the reply
carries tool calls, the assistant message is appended verbatim
(lines 87-101), the batch is dispatched (lines 104-146), round 2 is
issued without tools (lines 149-153) and its content buffered
(lines 155-156); the answer is the buffer joined by newlines
(line 158). -/
def process_query {Args : Type} (env : Env Args) (query : String) : TurnResult :=
  let messages0 : List Message := [Message.user query]
  let req1 := round1Request env query
  let message := env.backend req1
  let parts0 : List String :=
    if pyTruthy message.content then [message.content.getD ""] else []
  if message.tool_calls ≠ [] then
    let messages1 := messages0 ++
      [Message.assistant message.content message.tool_calls]
    let dispatched := dispatchAll env message.tool_calls
    let messages2 := messages1 ++ dispatched.1
    let req2 : ModelRequest := ⟨messages2, none⟩
    let final_message := env.backend req2
    let parts := parts0 ++ dispatched.2 ++
      (if pyTruthy final_message.content then [final_message.content.getD ""] else [])
    ⟨String.intercalate "\n" parts, messages2, [req1, req2]⟩
  else
    ⟨String.intercalate "\n" parts0, messages0, [req1]⟩

/-- The interactive loop (lines 160-175) processes queries one after
another; it keeps no state between turns (every turn calls
`process_query`, which builds its history afresh). -/
def runSession {Args : Type} (env : Env Args) : List String → List TurnResult
  | [] => []
  | q :: qs => process_query env q :: runSession env qs

/-- Recognizer for tool-role history entries. -/
def isToolRole : Message → Bool
  | .tool _ _ => true
  | _ => false

/-- A one-tool catalog for concrete runs. -/
def demoCatalog : List ToolDescriptor :=
  [⟨"get_weather", "Get the current weather for a city", "\x7b\x22type\x22: \x22object\x22\x7d"⟩]

/-- A concrete `json.loads` stand-in over `Args := String`: the literal
blob `not-json` fails with the CPython message, anything else parses
to itself. -/
def parseDemo : String → Except String String :=
  fun s =>
    if s = "not-json" then Except.error "Expecting value: line 1 column 1 (char 0)"
    else Except.ok s

/-- A concrete Tool Host: `get_weather` answers with one text item,
any other tool raises. -/
def demoCallTool : String → String → Except String ToolResponse :=
  fun n _ =>
    if n = "get_weather" then
      Except.ok (ToolResponse.withContent (HostContent.items [ContentItem.withText "Sunny, 18C"]))
    else Except.error "unknown tool"

/-- A concrete environment whose backend answers round 1 (the request
carrying tool specs) with `r1` and round 2 with `r2`. -/
def mkEnv (r1 r2 : AssistantReply) : Env String :=
  ⟨demoCatalog,
   fun req => if req.tools.isSome then r1 else r2,
   parseDemo,
   fun a => a,
   demoCallTool⟩

/-- A tool call whose argument blob does not parse. -/
def badCall : ToolCall := ⟨"call_1", "get_weather", "not-json"⟩

/-- A well-formed tool call. -/
def goodCall : ToolCall := ⟨"call_2", "get_weather", "\x7b\x22city\x22: \x22Paris\x22\x7d"⟩

/-- Concrete run in which round 1 emits a single unparseable call. -/
def envBad : Env String := mkEnv ⟨none, [badCall]⟩ ⟨some "done", []⟩

/-- Concrete run in which round 1 emits a bad call then a good one. -/
def envMixed : Env String := mkEnv ⟨none, [badCall, goodCall]⟩ ⟨some "done", []⟩

/-- Concrete run in which round 1 answers directly, with no tool call. -/
def envDirect : Env String := mkEnv ⟨some "Hello there", []⟩ ⟨some "unreached", []⟩


/-- Concrete run whose round-1 reply has no content and no tool calls. -/
def envEmpty : Env String := mkEnv ⟨none, []⟩ ⟨some "unreached", []⟩

/-- A call to a tool the Tool Host does not know, so `call_tool` raises. -/
def badToolCall : ToolCall := ⟨"call_9", "bad_tool", "args"⟩

/-- Concrete run in which the Tool Host raises during the one call. -/
def envToolErr : Env String := mkEnv ⟨none, [badToolCall]⟩ ⟨some "done", []⟩

/-- The same collaborators as `envDirect`, written as syntactically
different but pointwise-equal functions. -/
def envDirectAlt : Env String :=
  ⟨demoCatalog,
   fun req =>
     match req.tools with
     | some _ => ⟨some "Hello there", []⟩
     | none => ⟨some "unreached", []⟩,
   fun s => parseDemo s,
   fun a => "" ++ a,
   fun n a => demoCallTool n a⟩

theorem intercalate_singleton (s : String) : String.intercalate "\n" [s] = s := rfl

theorem intercalate_nil : String.intercalate "\n" [] = "" := rfl

/-- Closed-form restatement of `process_query`, separating the
no-tool-call branch from the tool-dispatch branch. -/
theorem process_query_eq {Args : Type} (env : Env Args) (query : String) :
    process_query env query =
      if (env.backend (round1Request env query)).tool_calls = [] then
        ⟨String.intercalate "\n"
           (if pyTruthy (env.backend (round1Request env query)).content
            then [(env.backend (round1Request env query)).content.getD ""] else []),
         [Message.user query], [round1Request env query]⟩
      else
        ⟨String.intercalate "\n"
           ((if pyTruthy (env.backend (round1Request env query)).content
             then [(env.backend (round1Request env query)).content.getD ""] else []) ++
            (dispatchAll env (env.backend (round1Request env query)).tool_calls).2 ++
            (if pyTruthy (env.backend ⟨Message.user query ::
                   Message.assistant (env.backend (round1Request env query)).content
                     (env.backend (round1Request env query)).tool_calls ::
                   (dispatchAll env (env.backend (round1Request env query)).tool_calls).1,
                 none⟩).content
             then [(env.backend ⟨Message.user query ::
                   Message.assistant (env.backend (round1Request env query)).content
                     (env.backend (round1Request env query)).tool_calls ::
                   (dispatchAll env (env.backend (round1Request env query)).tool_calls).1,
                 none⟩).content.getD ""] else [])),
         Message.user query ::
           Message.assistant (env.backend (round1Request env query)).content
             (env.backend (round1Request env query)).tool_calls ::
           (dispatchAll env (env.backend (round1Request env query)).tool_calls).1,
         [round1Request env query,
          ⟨Message.user query ::
             Message.assistant (env.backend (round1Request env query)).content
               (env.backend (round1Request env query)).tool_calls ::
             (dispatchAll env (env.backend (round1Request env query)).tool_calls).1,
           none⟩]⟩ := by
  unfold process_query
  by_cases h : (env.backend (round1Request env query)).tool_calls = [] <;> simp [h]

/-- C6: normalization of a Tool Host response: text content is used
verbatim; a list of items is mapped to each item's `text` attribute
when present (else its textual representation) and joined with newline
separators in order; any other content shape, or a response without a
`content` attribute, falls back to its textual representation. -/
theorem normalize_matches_shape_cases :
    (∀ s, normalizeResult (ToolResponse.withContent (HostContent.text s)) = s)
    ∧ (∀ l, normalizeResult (ToolResponse.withContent (HostContent.items l)) =
        String.intercalate "\n" (l.map itemText))
    ∧ (∀ t, itemText (ContentItem.withText t) = t)
    ∧ (∀ r, itemText (ContentItem.other r) = r)
    ∧ (∀ r, normalizeResult (ToolResponse.withContent (HostContent.fallback r)) = r)
    ∧ (∀ r, normalizeResult (ToolResponse.noContent r) = r) :=
  ⟨fun _ => rfl, fun _ => rfl, fun _ => rfl, fun _ => rfl, fun _ => rfl, fun _ => rfl⟩

/-- C5: when the round-1 reply carries no tool calls, the returned
answer is the assistant's direct text verbatim and the only model
request issued is round 1. -/
theorem direct_answer_no_round2 {Args : Type} (env : Env Args) (query : String)
    (h : (env.backend (round1Request env query)).tool_calls = []) :
    (∀ s, (env.backend (round1Request env query)).content = some s →
        (process_query env query).answer = s)
    ∧ (process_query env query).requests = [round1Request env query] := by
  rw [process_query_eq]
  simp only [h, if_true, if_pos]
  constructor
  · intro s hs
    by_cases hse : s = ""
    · subst hse
      simp [hs, pyTruthy, intercalate_nil]
    · simp [hs, pyTruthy, hse, intercalate_singleton]
  · trivial

/-- C8: a round-1 reply with falsy content (None or empty) and no tool
calls yields the empty answer, and a turn with zero tool calls issues
only the round-1 request. -/
theorem empty_reply_empty_answer {Args : Type} (env : Env Args) (query : String)
    (h : (env.backend (round1Request env query)).tool_calls = []) :
    (pyTruthy (env.backend (round1Request env query)).content = false →
        (process_query env query).answer = "")
    ∧ (process_query env query).requests = [round1Request env query] := by
  rw [process_query_eq]
  simp only [h, if_true, if_pos]
  constructor
  · intro hc
    simp [hc, intercalate_nil]
  · trivial

/-- C3: a Tool Host exception during `call_tool` is absorbed at the
dispatch boundary into the result text `[Tool execution error: <message>]`;
the tool-role message is still appended, the rest of the batch is still
dispatched after it, and a turn whose round-1 reply carries tool calls
still issues the round-2 request. -/
theorem tool_error_isolated {Args : Type} (env : Env Args) (tc : ToolCall) (a : Args)
    (e : String)
    (h1 : env.parse tc.arguments = Except.ok a)
    (h2 : env.callTool tc.name a = Except.error e) :
    dispatchOne env tc =
      ([Message.tool tc.id ("[Tool execution error: " ++ e ++ "]")],
       [traceLine env tc.name a, "[Tool execution error: " ++ e ++ "]"])
    ∧ (∀ rest, dispatchAll env (tc :: rest) =
        ((dispatchOne env tc).1 ++ (dispatchAll env rest).1,
         (dispatchOne env tc).2 ++ (dispatchAll env rest).2))
    ∧ (∀ query, (env.backend (round1Request env query)).tool_calls ≠ [] →
        (process_query env query).requests.length = 2) := by
  refine ⟨?_, fun rest => rfl, fun query hq => ?_⟩
  · simp [dispatchOne, dispatchResult, h1, h2]
  · rw [process_query_eq]
    simp [hq]

/-- C4: when a call's argument blob fails to parse, the Tool Host is
never invoked (the dispatch outcome is the same for every `callTool`
collaborator), the buffered line starts with
`[Error parsing arguments for <tool>:`, and the rest of the batch is
still dispatched with its own results. -/
theorem parse_error_no_invoke {Args : Type} (env : Env Args) (tc : ToolCall) (e : String)
    (h : env.parse tc.arguments = Except.error e) :
    (∀ f, dispatchOne { env with callTool := f } tc = ([], [parseErrorLine tc.name e]))
    ∧ (∃ t, parseErrorLine tc.name e =
        "[Error parsing arguments for " ++ tc.name ++ ":" ++ t)
    ∧ (∀ rest, dispatchAll env (tc :: rest) =
        ((dispatchAll env rest).1,
         parseErrorLine tc.name e :: (dispatchAll env rest).2)) := by
  refine ⟨fun f => ?_, ⟨" " ++ e ++ "]", ?_⟩, fun rest => ?_⟩
  · simp [dispatchOne, h]
  · unfold parseErrorLine
    simp only [String.append_assoc]
    congr 1
  · simp [dispatchAll, dispatchOne, h]

/-- C2 counterexample: in the concrete run whose single tool call has
the unparseable argument blob `not-json`, the dispatch loop appends one
parse-error line to the output buffer and no trace line of the shape
`[Called tool ... with args ...]` followed by a result text. -/
theorem trace_line_missing_on_parse_error :
    (dispatchOne envBad badCall).2 =
      [parseErrorLine "get_weather" "Expecting value: line 1 column 1 (char 0)"]
    ∧ ¬ ∃ shown result, (dispatchOne envBad badCall).2 =
        ["[Called tool \x27get_weather\x27 with args " ++ shown, result] := by
  refine ⟨rfl, ?_⟩
  rintro ⟨shown, result, hcontra⟩
  have hlen : (dispatchOne envBad badCall).2.length = 1 := rfl
  rw [hcontra] at hlen
  simp at hlen

/-- C2 amended: for every tool call whose arguments parse — whether the
invocation then succeeds or fails — the output buffer receives the
trace line naming the tool and its arguments immediately followed by
the result text, and batch contributions appear in emission order;
a call whose arguments fail to parse contributes a single parse-error
line instead. -/
theorem trace_then_result_for_parsed {Args : Type} (env : Env Args) (tc : ToolCall)
    (a : Args)
    (h : env.parse tc.arguments = Except.ok a) :
    (dispatchOne env tc).2 = [traceLine env tc.name a, dispatchResult env tc.name a]
    ∧ (∀ rest, (dispatchAll env (tc :: rest)).2 =
        (dispatchOne env tc).2 ++ (dispatchAll env rest).2) := by
  refine ⟨?_, fun rest => rfl⟩
  simp [dispatchOne, h]

/-- C1 failing run: with a round-1 reply carrying exactly one tool call
whose arguments do not parse, the loop appends zero tool-role messages,
so the final history is the user message followed by an assistant
message whose tool call is left unanswered. -/
theorem tool_message_dropped_on_parse_error :
    (process_query envBad "What is the weather in Paris?").history.countP isToolRole = 0
    ∧ (envBad.backend
        (round1Request envBad "What is the weather in Paris?")).tool_calls.length = 1
    ∧ (process_query envBad "What is the weather in Paris?").history =
        [Message.user "What is the weather in Paris?",
         Message.assistant none [badCall]] :=
  ⟨rfl, rfl, rfl⟩

/-- C7: the final conversation history is exactly the user message
followed, when tool calls occurred, by the assistant message and the
tool-role messages in dispatch order; and the history passed to every
model request of the turn is a prefix of the final history, so no
append is ever deleted, mutated, or reordered. -/
theorem conversation_history_append_order {Args : Type} (env : Env Args)
    (query : String) :
    ((process_query env query).history =
      Message.user query ::
        (if (env.backend (round1Request env query)).tool_calls = [] then []
         else Message.assistant (env.backend (round1Request env query)).content
                (env.backend (round1Request env query)).tool_calls ::
              (dispatchAll env (env.backend (round1Request env query)).tool_calls).1))
    ∧ ∀ req ∈ (process_query env query).requests,
        List.IsPrefix req.messages (process_query env query).history := by
  rw [process_query_eq]
  by_cases h : (env.backend (round1Request env query)).tool_calls = []
  · simp only [h, if_true, if_pos]
    refine ⟨trivial, ?_⟩
    intro req hreq
    simp only [List.mem_singleton] at hreq
    subst hreq
    exact List.prefix_refl _
  · simp only [h, if_neg, if_false]
    refine ⟨trivial, ?_⟩
    intro req hreq
    simp only [List.mem_cons, List.mem_singleton, List.not_mem_nil, or_false] at hreq
    rcases hreq with rfl | rfl
    · exact ⟨_, rfl⟩
    · exact List.prefix_refl _

/-- C9: the interactive loop keeps no conversational state across turns
(a session is the turn-wise map of `process_query` over the queries),
the first request of every turn is the fresh single-user-message
round-1 request, and every request issued during a turn starts with the
current user message. -/
theorem fresh_history_each_turn {Args : Type} (env : Env Args) (qs : List String)
    (q : String) :
    runSession env qs = qs.map (process_query env)
    ∧ (process_query env q).requests.head? = some (round1Request env q)
    ∧ (∀ req ∈ (process_query env q).requests,
        req.messages.head? = some (Message.user q)) := by
  refine ⟨?_, ?_, ?_⟩
  · induction qs with
    | nil => rfl
    | cons x xs ih => simp [runSession, ih]
  · rw [process_query_eq]
    by_cases h : (env.backend (round1Request env q)).tool_calls = [] <;> simp [h]
  · intro req hreq
    rw [process_query_eq] at hreq
    by_cases h : (env.backend (round1Request env q)).tool_calls = [] <;>
      simp only [h, if_true, if_pos, if_neg, if_false, List.mem_cons,
        List.mem_singleton, List.not_mem_nil, or_false] at hreq
    · subst hreq
      rfl
    · rcases hreq with rfl | rfl <;> rfl

theorem dispatchOne_congr {Args : Type} (env envAlt : Env Args)
    (hP : ∀ s, env.parse s = envAlt.parse s)
    (hS : ∀ a, env.showArgs a = envAlt.showArgs a)
    (hC : ∀ n a, env.callTool n a = envAlt.callTool n a)
    (tc : ToolCall) : dispatchOne env tc = dispatchOne envAlt tc := by
  cases henv : envAlt.parse tc.arguments with
  | error e => simp [dispatchOne, hP tc.arguments, henv]
  | ok a =>
      simp [dispatchOne, dispatchResult, traceLine, hP tc.arguments, henv,
        hS a, hC tc.name a]

theorem dispatchAll_congr {Args : Type} (env envAlt : Env Args)
    (hP : ∀ s, env.parse s = envAlt.parse s)
    (hS : ∀ a, env.showArgs a = envAlt.showArgs a)
    (hC : ∀ n a, env.callTool n a = envAlt.callTool n a) :
    ∀ tcs, dispatchAll env tcs = dispatchAll envAlt tcs := by
  intro tcs
  induction tcs with
  | nil => rfl
  | cons tc rest ih =>
      simp [dispatchAll, dispatchOne_congr env envAlt hP hS hC tc, ih]

/-- C10: a query turn is a deterministic function of the query text and
the collaborator responses: two environments whose collaborators answer
identically produce identical answers, histories, and issued requests. -/
theorem turn_deterministic_in_responses {Args : Type} (env envAlt : Env Args)
    (query : String)
    (hT : env.listTools = envAlt.listTools)
    (hB : ∀ req, env.backend req = envAlt.backend req)
    (hP : ∀ s, env.parse s = envAlt.parse s)
    (hS : ∀ a, env.showArgs a = envAlt.showArgs a)
    (hC : ∀ n a, env.callTool n a = envAlt.callTool n a) :
    process_query env query = process_query envAlt query := by
  have hav : availableTools env = availableTools envAlt := by
    unfold availableTools
    rw [hT]
  have hr1 : round1Request env query = round1Request envAlt query := by
    unfold round1Request
    rw [hav]
  have hall := dispatchAll_congr env envAlt hP hS hC
  unfold process_query
  rw [hr1]
  simp only [hB, hall]

/-- Witness for C5 at the concrete direct-answer run. -/
theorem direct_answer_no_round2_witness :
    (process_query envDirect "Hello").answer = "Hello there"
    ∧ (process_query envDirect "Hello").requests = [round1Request envDirect "Hello"] :=
  ⟨(direct_answer_no_round2 envDirect "Hello" rfl).1 "Hello there" rfl,
   (direct_answer_no_round2 envDirect "Hello" rfl).2⟩

/-- Witness for C8 at the concrete empty-reply run. -/
theorem empty_reply_empty_answer_witness :
    (process_query envEmpty "Hi").answer = ""
    ∧ (process_query envEmpty "Hi").requests = [round1Request envEmpty "Hi"] :=
  ⟨(empty_reply_empty_answer envEmpty "Hi" rfl).1 rfl,
   (empty_reply_empty_answer envEmpty "Hi" rfl).2⟩

/-- Witness for C3 at the concrete raising-tool run. -/
theorem tool_error_isolated_witness :
    dispatchOne envToolErr badToolCall =
      ([Message.tool "call_9" "[Tool execution error: unknown tool]"],
       [traceLine envToolErr "bad_tool" "args", "[Tool execution error: unknown tool]"])
    ∧ (process_query envToolErr "q").requests.length = 2 :=
  ⟨(tool_error_isolated envToolErr badToolCall "args" "unknown tool" rfl rfl).1,
   (tool_error_isolated envToolErr badToolCall "args" "unknown tool" rfl rfl).2.2 "q"
     (by decide)⟩

/-- Witness for C4 at the concrete mixed bad-then-good batch. -/
theorem parse_error_no_invoke_witness :
    dispatchOne envMixed badCall =
      ([], [parseErrorLine "get_weather" "Expecting value: line 1 column 1 (char 0)"])
    ∧ dispatchAll envMixed [badCall, goodCall] =
        ((dispatchAll envMixed [goodCall]).1,
         parseErrorLine "get_weather" "Expecting value: line 1 column 1 (char 0)"
           :: (dispatchAll envMixed [goodCall]).2) :=
  ⟨(parse_error_no_invoke envMixed badCall
      "Expecting value: line 1 column 1 (char 0)" rfl).1 envMixed.callTool,
   (parse_error_no_invoke envMixed badCall
      "Expecting value: line 1 column 1 (char 0)" rfl).2.2 [goodCall]⟩

/-- Witness for the amended C2 at the concrete well-formed call. -/
theorem trace_then_result_for_parsed_witness :
    (dispatchOne envMixed goodCall).2 =
      [traceLine envMixed "get_weather" goodCall.arguments,
       dispatchResult envMixed "get_weather" goodCall.arguments]
    ∧ (dispatchAll envMixed [goodCall, badCall]).2 =
        (dispatchOne envMixed goodCall).2 ++ (dispatchAll envMixed [badCall]).2 :=
  ⟨(trace_then_result_for_parsed envMixed goodCall goodCall.arguments rfl).1,
   (trace_then_result_for_parsed envMixed goodCall goodCall.arguments rfl).2 [badCall]⟩

/-- Witness for C7 at the concrete mixed batch: the round-1 history is a
prefix of the final history. -/
theorem conversation_history_append_order_witness :
    List.IsPrefix (round1Request envMixed "weather?").messages
      (process_query envMixed "weather?").history :=
  (conversation_history_append_order envMixed "weather?").2
    (round1Request envMixed "weather?") (by decide)

/-- Witness for C9 at concrete sessions and turns. -/
theorem fresh_history_each_turn_witness :
    runSession envDirect ["Hello", "Bye"] =
      [process_query envDirect "Hello", process_query envDirect "Bye"]
    ∧ (process_query envMixed "weather?").requests.head? =
        some (round1Request envMixed "weather?")
    ∧ (round1Request envMixed "weather?").messages.head? =
        some (Message.user "weather?") :=
  ⟨(fresh_history_each_turn envDirect ["Hello", "Bye"] "Hello").1,
   (fresh_history_each_turn envMixed [] "weather?").2.1,
   (fresh_history_each_turn envMixed [] "weather?").2.2 (round1Request envMixed "weather?")
     (by decide)⟩

/-- Witness for C10: two syntactically different but pointwise-equal
environments produce the same turn. -/
theorem turn_deterministic_in_responses_witness :
    process_query envDirect "Hello" = process_query envDirectAlt "Hello" :=
  turn_deterministic_in_responses envDirect envDirectAlt "Hello" rfl
    (fun req => by obtain ⟨m, t⟩ := req; cases t <;> rfl) (fun s => rfl) (fun a => rfl)
    (fun n a => rfl)
